/-
Verification of the natural-language specification of the cyberdesk
repository (cyberdesk operator, gateway and Python SDK) against a shallow
Lean embedding of its source code.

Each definition mirrors one Python function or data shape from the source:
  * src/services/cyberdesk-operator/handlers/controller.py
  * src/services/gateway/main.py
  * src/sdks/py-sdk/openapi_client/.../post_v1_desktop_id_computer_action_wait_action.py

Effects (Kubernetes API calls, Supabase writes, HTTP responses) are made
explicit: handlers become pure functions from an input state ("world") to a
result record listing the actions they performed, and exceptions become
explicit result constructors.
-/
import Mathlib

namespace Cyberdesk

/-- Lookup in a list of string key/value pairs (a Python dict of labels). -/
def lookupStr : List (String × String) → String → Option String
  | [], _ => none
  | p :: t, k => if p.1 = k then some p.2 else lookupStr t k

/-- `labels[k] = v` on a string map with unique keys: replace the value in
place when the key exists, append otherwise. -/
def setStr : List (String × String) → String → String → List (String × String)
  | [], k, v => [(k, v)]
  | p :: t, k, v => if p.1 = k then (k, v) :: t else p :: setStr t k v

/-! ## VMI phase → Supabase status sync

Embedding of `KubeVirtVMIPhase`, `SupabaseInstanceStatus`,
`VMI_PHASE_TO_SUPABASE_STATUS` and the `vmi_phase_change` kopf handler
(controller.py lines 81-111 and 711-728). -/

/-- `KubeVirtVMIPhase(s)`: parse a phase string into the enum; `none` models
the `ValueError` Python raises for an unrecognized value. The enum members
are represented by their string values. -/
def kubeVirtVMIPhaseOf? (s : String) : Option String :=
  if s = "Pending" ∨ s = "Scheduling" ∨ s = "Scheduled" ∨ s = "Running" ∨
     s = "Succeeded" ∨ s = "Failed" ∨ s = "Unknown" then some s else none

/-- `VMI_PHASE_TO_SUPABASE_STATUS`: the static dict mapping each recognized
phase to a Supabase status value (controller.py lines 103-111). -/
def vmiPhaseToSupabaseStatus (phase : String) : Option String :=
  if phase = "Pending" then some "pending"
  else if phase = "Scheduling" then some "pending"
  else if phase = "Scheduled" then some "pending"
  else if phase = "Running" then some "pending"
  else if phase = "Succeeded" then some "terminated"
  else if phase = "Failed" then some "error"
  else if phase = "Unknown" then some "error"
  else none

/-- Result of one invocation of the `vmi_phase_change` handler. -/
inductive SyncResult where
  /-- An early `return` (no new phase, wrong `app` label, or missing
  `cyberdesk-instance` label): no datastore access beyond the guards. -/
  | skipped
  /-- The mapped status equals the stored one: no write issued. -/
  | noWrite
  /-- `update_instance_status` was called: row `id` set to `newStatus`. -/
  | wrote (id : String) (newStatus : String)
  /-- The handler raised (the unguarded `KubeVirtVMIPhase(new)` call on line
  725 raises `ValueError` for an unrecognized phase before any write). -/
  | raised
deriving DecidableEq, Repr

/-- The `vmi_phase_change` kopf handler (controller.py lines 711-728).
`labels` is `meta.labels`, `new` the new `status.phase` value, `currentDb`
the status currently stored in Supabase for the instance (`none` when the
row is missing or the read errored, mirroring `get_instance_status`). -/
def vmi_phase_change (labels : List (String × String)) (new : Option String)
    (currentDb : Option String) : SyncResult :=
  match new with
  | none => .skipped
  | some ph =>
    if lookupStr labels "app" ≠ some "cyberdesk" then .skipped
    else
      match lookupStr labels "cyberdesk-instance" with
      | none => .skipped
      | some instanceId =>
        if instanceId = "" then .skipped   -- Python falsiness of ""
        else
          match kubeVirtVMIPhaseOf? ph with
          | none => .raised                -- ValueError from KubeVirtVMIPhase(new)
          | some phase =>
            match vmiPhaseToSupabaseStatus phase with
            | none => .raised              -- unreachable for parsed phases
            | some desired =>
              if currentDb = some desired then .noWrite
              else .wrote instanceId desired

/-! ## Expiry sweeper

Embedding of the `cyberdesk_timeout_check` timer handler (controller.py
lines 784-795). Timestamps are abstracted to integers; `now >= expiry`
mirrors `datetime.now(UTC) >= datetime.fromisoformat(expiry_str)`. -/

/-- Result of one sweep-tick invocation for one Cyberdesk resource. -/
inductive TimerResult where
  /-- Returned without issuing a delete (no `expiryTime`, or not expired). -/
  | skipped
  /-- The delete call was issued and succeeded. -/
  | deleted (name : String)
  /-- The delete call was issued and raised `ApiException(status)`; the
  handler has no try/except around the call, so the exception propagates. -/
  | raisedApi (name : String) (code : Nat)
deriving DecidableEq, Repr

/-- The `cyberdesk_timeout_check` timer handler for a single resource.
`expiry` is `status.cyberdesk_create.expiryTime` (absent ↦ `none`),
`deleteError` the outcome the Kubernetes delete call would have
(`none` = success, `some code` = `ApiException` with that HTTP status). -/
def cyberdesk_timeout_check (now : Int) (name : String) (expiry : Option Int)
    (deleteError : Option Nat) : TimerResult :=
  match expiry with
  | none => .skipped
  | some e =>
    if now ≥ e then
      match deleteError with
      | none => .deleted name
      | some code => .raisedApi name code
    else .skipped

/-! ## Warm-pool claim algorithm

Embedding of `get_free_vm_from_pool` (controller.py lines 216-294). The
input list is the `items` of the Kubernetes list call with label selector
`pool.kubevirt.io/warm=ready`; a successful list is assumed (a list failure
raises `kopf.TemporaryError` before the loop and is outside these claims).
The pluck patch is a Kubernetes strategic-merge patch whose outcome on each
candidate is abstracted by `patchOk`. -/

/-- One `VirtualMachine` item as seen by the warm-pool loop: its
`metadata.name` (`""` models a missing name, which Python treats as falsy),
its `metadata.labels`, its `status.printableStatus` and whether it still
carries `metadata.ownerReferences`. -/
structure PoolVM where
  name : String
  labels : List (String × String)
  printableStatus : Option String
  hasOwnerReferences : Bool
deriving DecidableEq, Repr

/-- Loop body of `get_free_vm_from_pool`: walk the listed VMs in order,
skipping candidates without a name, already `in-use`, or not `Running`;
attempt the pluck patch on the first qualifying one; on patch failure log
and continue with the next candidate; return `none` when nothing was
claimable. -/
def get_free_vm_from_pool (patchOk : String → Bool) :
    List PoolVM → Option String
  | [] => none
  | vm :: rest =>
    if vm.name = "" then get_free_vm_from_pool patchOk rest
    else if lookupStr vm.labels "pool.kubevirt.io/in-use" = some "true" then
      get_free_vm_from_pool patchOk rest
    else if vm.printableStatus ≠ some "Running" then
      get_free_vm_from_pool patchOk rest
    else if patchOk vm.name then some vm.name
    else get_free_vm_from_pool patchOk rest

/-- The pluck patch body applied to a claimed VM (controller.py lines
264-274): `ownerReferences: None` detaches it from the pool controller, and
the label dict is `{**labels, "pool.kubevirt.io/in-use": "true",
"pool.kubevirt.io/warm": "claimed"}`. -/
def pluckPatch (vm : PoolVM) : PoolVM :=
  { vm with
    hasOwnerReferences := false,
    labels := setStr (setStr vm.labels "pool.kubevirt.io/in-use" "true")
      "pool.kubevirt.io/warm" "claimed" }

/-- A candidate passes the two label/status checks of the loop. -/
def vmEligible (vm : PoolVM) : Bool :=
  decide (lookupStr vm.labels "pool.kubevirt.io/in-use" ≠ some "true") &&
  decide (vm.printableStatus = some "Running")

/-! ## Cyberdesk create reconciliation

Embedding of the `cyberdesk_create` kopf handler (controller.py lines
450-708) together with `_ensure_vm_patched_and_running` (lines 401-447).
The handler's Kubernetes side effects are made explicit in a result record;
the cluster responses it would observe are an explicit input world. -/

/-- `status.cyberdesk_create` of a Cyberdesk resource: each field `none`
when the key is absent. -/
structure CyberdeskStatus where
  virtualMachineRef : Option String := none
  cloneOperationName : Option String := none
  lastPhase : Option String := none
  startTime : Option String := none
  expiryTime : Option String := none
deriving DecidableEq, Repr

/-- The dict assigned to `patch.status["cyberdesk_create"]`, read as a JSON
merge patch: `none` = key absent from the dict (stored value untouched),
`some none` = key explicitly `None` (stored value removed), `some (some v)`
= key set to `v`. -/
structure StatusPatch where
  virtualMachineRef : Option (Option String) := none
  cloneOperationName : Option (Option String) := none
  lastPhase : Option (Option String) := none
  startTime : Option (Option String) := none
  expiryTime : Option (Option String) := none
deriving DecidableEq, Repr

/-- Merge-patch application for one field. -/
def applyField (old : Option String) : Option (Option String) → Option String
  | none => old
  | some v => v

/-- Apply a status merge patch to a stored `cyberdesk_create` status. -/
def applyPatch (s : CyberdeskStatus) (p : StatusPatch) : CyberdeskStatus :=
  { virtualMachineRef := applyField s.virtualMachineRef p.virtualMachineRef,
    cloneOperationName := applyField s.cloneOperationName p.cloneOperationName,
    lastPhase := applyField s.lastPhase p.lastPhase,
    startTime := applyField s.startTime p.startTime,
    expiryTime := applyField s.expiryTime p.expiryTime }

/-- The patch dict `{**current_status}`: every present key of the stored
status appears with its value, absent keys do not appear. -/
def statusPatchOfFull (s : CyberdeskStatus) : StatusPatch :=
  { virtualMachineRef := s.virtualMachineRef.map some,
    cloneOperationName := s.cloneOperationName.map some,
    lastPhase := s.lastPhase.map some,
    startTime := s.startTime.map some,
    expiryTime := s.expiryTime.map some }

/-- The `spec` of a created `VirtualMachineClone` object (controller.py
lines 612-620). -/
structure CloneSpec where
  name : String
  sourceApiGroup : String
  sourceKind : String
  sourceName : String
  targetApiGroup : String
  targetKind : String
  targetName : String
deriving DecidableEq, Repr

/-- How one reconciliation attempt ends: a plain `return`, a raised
`kopf.TemporaryError` (retry scheduled) or a raised `kopf.PermanentError`
(no further retry). -/
inductive Outcome where
  | done
  | temporaryError
  | permanentError
deriving DecidableEq, Repr

/-- Side effects and outcome of one `cyberdesk_create` invocation.
`createdVMs` records direct `create` calls on the `virtualmachines`
resource (the handler never issues one: VMs only come from plucking or
from the clone controller); `vmPatches` records the VM names whose patch
was attempted. -/
structure ReconcileResult where
  outcome : Outcome
  createdVMs : List String := []
  createdClones : List CloneSpec := []
  deletedClones : List String := []
  vmPatches : List String := []
  statusPatch : Option StatusPatch := none
deriving DecidableEq, Repr

/-- Cluster responses observed by one reconciliation attempt.
`cloneDeleteError` is the outcome of deleting a timed-out clone
(`none` = success, `some code` = `ApiException code`); the handler only
logs such failures (404 silently, others as a warning), so the field never
influences the result. -/
structure OperatorWorld where
  /-- The get/patch of `_ensure_vm_patched_and_running` (and of the plucked
  VM finalization) succeeds for this VM name; any `ApiException` there is
  converted to `kopf.TemporaryError`. -/
  ensurePatchOk : String → Bool
  /-- Items of the warm-pool list call. -/
  warmPool : List PoolVM
  /-- Pluck patch outcome per candidate name. -/
  poolPatchOk : String → Bool
  /-- `GATEWAY_BASE_URL` is configured (its absence raises
  `kopf.PermanentError` in the plucked branch). -/
  gatewayConfigured : Bool
  /-- The get of the tracked `VirtualMachineClone` finds it (`false`
  models the 404 branch). -/
  cloneExists : Bool
  /-- `status.phase` of the existing clone object. -/
  clonePhase : Option String
  /-- Creating the missing clone object succeeds. -/
  cloneCreateOk : Bool
  /-- See docstring above. -/
  cloneDeleteError : Option Nat
  /-- `datetime.now(UTC).isoformat()` at this attempt. -/
  now : String
  /-- `(now + timedelta(milliseconds=timeout_ms)).isoformat()`. -/
  expiry : String

/-- `GOLDEN_SNAPSHOT_NAME` (controller.py line 116). -/
def GOLDEN_SNAPSHOT_NAME : String := "snapshot-golden-vm"

/-- `max_clone_wait_retries` (controller.py line 456). -/
def maxCloneWaitRetries : Nat := 20

/-- The `clone_body` dict passed to the clone create call (controller.py
lines 612-620): source is the golden snapshot, target the instance-named
VM. -/
def cloneBodyFor (cloneOpName instanceId : String) : CloneSpec :=
  { name := cloneOpName,
    sourceApiGroup := "snapshot.kubevirt.io",
    sourceKind := "VirtualMachineSnapshot",
    sourceName := GOLDEN_SNAPSHOT_NAME,
    targetApiGroup := "kubevirt.io",
    targetKind := "VirtualMachine",
    targetName := instanceId }

/-- Idempotency branch (controller.py lines 467-507): the status already
carries a truthy `virtualMachineRef` with `lastPhase` in
`["Plucked", "Cloned", "Running"]`. `_ensure_vm_patched_and_running` is
re-applied; on success the status is patched back (backfilling
`startTime`/`expiryTime` when either is missing) and the
`cloneOperationName` key is then deleted from the patch dict; on failure
the raised `kopf.TemporaryError` is re-raised. -/
def idempotentBranch (w : OperatorWorld) (vmRef : String)
    (current : CyberdeskStatus) : ReconcileResult :=
  if w.ensurePatchOk vmRef then
    let base :=
      if current.startTime = none ∨ current.expiryTime = none then
        { statusPatchOfFull current with
          startTime := some (some w.now), expiryTime := some (some w.expiry) }
      else statusPatchOfFull current
    { outcome := .done, vmPatches := [vmRef],
      statusPatch := some { base with cloneOperationName := none } }
  else
    { outcome := .temporaryError, vmPatches := [vmRef] }

/-- Plucked-VM branch (controller.py lines 519-572): finalize the plucked
VM's labels/spec, notify the gateway (failures only logged, but a missing
gateway base URL raises `kopf.PermanentError`), then record the plucked
status. -/
def pluckedBranch (w : OperatorWorld) (_instanceId pluckedName : String) :
    ReconcileResult :=
  if w.ensurePatchOk pluckedName then
    if w.gatewayConfigured then
      { outcome := .done, vmPatches := [pluckedName],
        statusPatch := some
          { virtualMachineRef := some (some pluckedName),
            startTime := some (some w.now),
            expiryTime := some (some w.expiry),
            lastPhase := some (some "Plucked"),
            cloneOperationName := some none } }
    else
      { outcome := .permanentError, vmPatches := [pluckedName] }
  else
    { outcome := .temporaryError, vmPatches := [pluckedName] }

/-- Clone-status branch (controller.py lines 599-708), reached when the
stored status carries a truthy `cloneOperationName`. -/
def cloneCheckBranch (w : OperatorWorld) (instanceId cloneOpName : String)
    (current : CyberdeskStatus) (retry : Nat) : ReconcileResult :=
  if ¬ w.cloneExists then
    -- 404 on the get: create the clone, then raise TemporaryError to wait
    -- for its status on the next attempt; a failed create is an
    -- ApiException caught by the outer handler as TemporaryError as well.
    if w.cloneCreateOk then
      { outcome := .temporaryError,
        createdClones := [cloneBodyFor cloneOpName instanceId] }
    else { outcome := .temporaryError }
  else if w.clonePhase = some "Succeeded" then
    if w.ensurePatchOk instanceId then
      { outcome := .done, vmPatches := [instanceId],
        statusPatch := some
          { virtualMachineRef := some (some instanceId),
            startTime := some (some w.now),
            expiryTime := some (some w.expiry),
            lastPhase := some (some "Cloned"),
            cloneOperationName := some none } }
    else { outcome := .temporaryError, vmPatches := [instanceId] }
  else if w.clonePhase = some "Failed" then
    { outcome := .permanentError,
      statusPatch := some { statusPatchOfFull current with
        lastPhase := some (some "CloneFailed"),
        cloneOperationName := some none,
        virtualMachineRef := some none } }
  else if w.clonePhase = some "Unknown" then
    { outcome := .temporaryError }
  else
    -- In-progress phases (SnapshotInProgress, CreatingTargetVM,
    -- RestoreInProgress, absent): time out after the retry bound.
    if retry ≥ maxCloneWaitRetries then
      { outcome := .permanentError, deletedClones := [cloneOpName],
        statusPatch := some { statusPatchOfFull current with
          lastPhase := some (some "CloneTimeout"),
          cloneOperationName := some none,
          virtualMachineRef := some none } }
    else { outcome := .temporaryError }

/-- The `if vm_ref and last_phase in ["Plucked", "Cloned", "Running"]`
idempotency test (controller.py line 468); `""` is falsy in Python. -/
def provisionedRef (current : CyberdeskStatus) : Option String :=
  match current.virtualMachineRef with
  | none => none
  | some v =>
    if v ≠ "" ∧ (current.lastPhase = some "Plucked" ∨
        current.lastPhase = some "Cloned" ∨ current.lastPhase = some "Running")
    then some v else none

/-- Fresh-instance branch (controller.py lines 514-591): try the warm pool;
pluck on success, otherwise record the clone decision in status and return
without creating the clone object. -/
def freshBranch (w : OperatorWorld) (instanceId : String) : ReconcileResult :=
  match get_free_vm_from_pool w.poolPatchOk w.warmPool with
  | some pluckedName => pluckedBranch w instanceId pluckedName
  | none =>
    { outcome := .done,
      statusPatch := some
        { cloneOperationName := some (some ("clone-for-" ++ instanceId)),
          lastPhase := some (some "CloningInitiated"),
          virtualMachineRef := some none } }

/-- The `cyberdesk_create` kopf handler (controller.py lines 450-708) for a
Cyberdesk named `instanceId`, with the stored `status.cyberdesk_create`
`current` and kopf retry counter `retry`. -/
def cyberdesk_create (w : OperatorWorld) (instanceId : String)
    (current : CyberdeskStatus) (retry : Nat) : ReconcileResult :=
  match provisionedRef current with
  | some vmRef => idempotentBranch w vmRef current
  | none =>
    match current.cloneOperationName with
    | some c =>
      if c ≠ "" then cloneCheckBranch w instanceId c current retry
      else freshBranch w instanceId
    | none => freshBranch w instanceId

/-! ## Gateway: ready callback

Embedding of `get_gateway_external_ip`, `update_supabase_instance` and the
`POST /cyberdesk/{vm_id}/ready` handler `cyberdesk_ready`
(gateway main.py lines 468-536 and 599-638). -/

/-- Response of the `cyberdesk_ready` endpoint: 200 with the stream URL, or
an `HTTPException` with the given status code. -/
inductive ReadyResponse where
  | ok (streamUrl : String)
  | err (code : Nat)
deriving DecidableEq, Repr

/-- What one `cyberdesk_ready` invocation did: its HTTP response and the
Supabase update it issued, if any, as `(id, status, stream_url)`. -/
structure ReadyResult where
  response : ReadyResponse
  dbWrite : Option (String × String × String) := none
deriving DecidableEq, Repr

/-- Environment of one `cyberdesk_ready` invocation.
`externalIp` is the result of `get_gateway_external_ip`: the LoadBalancer
ingress IP or hostname read from the gateway service status at request
time, or `none` when the lookup errors or the service reports no ingress
address. `dbRowsUpdated` is the length of `response.data` of the Supabase
update (`none` models an exception inside `update_supabase_instance`,
which makes it return `False`). -/
structure ReadyWorld where
  externalIp : Option String
  dbRowsUpdated : Option Nat

/-- The `cyberdesk_ready` handler (gateway main.py lines 599-638): look up
the gateway's external address (503 before any write when unavailable),
build `http://{ip}:80/vnc/{vm_id}`, update the Supabase row to status
`running` with that URL, and answer 200 on success or 500 when the update
reports no rows updated or raised. -/
def cyberdesk_ready (vmId : String) (w : ReadyWorld) : ReadyResult :=
  match w.externalIp with
  | none => { response := .err 503 }
  | some ip =>
    let streamUrl := "http://" ++ ip ++ ":80/vnc/" ++ vmId
    let write := some (vmId, "running", streamUrl)
    match w.dbRowsUpdated with
    | none => { response := .err 500, dbWrite := write }
    | some n =>
      if n > 0 then { response := .ok streamUrl, dbWrite := write }
      else { response := .err 500, dbWrite := write }

/-! ## Gateway: VM command/health proxy, local path

Embedding of the local/out-of-cluster branch of `_proxy_request_to_vm`
(gateway main.py lines 884-978): pod discovery by the
`kubevirt.io/domain={vmid}` label selector, then the request through the
Kubernetes pod-proxy API with its error mapping. -/

/-- A pod as returned by the label-filtered list call: its name and its
`status.phase` (which the code never consults). -/
structure PodInfo where
  name : String
  phase : String
deriving DecidableEq, Repr

/-- Outcome of the `api_client.call_api` pod-proxy request. -/
inductive ProxyCall where
  | success (statusCode : Nat) (body : String)
  | apiError (statusCode : Nat)
  | timeout
deriving DecidableEq, Repr

/-- What `_proxy_request_to_vm` produces on the local path: either the
`(status_code, response_text)` pair returned to the route handler, or an
`HTTPException` with the given status code. -/
inductive ProxyResult where
  | ok (statusCode : Nat) (body : String)
  | httpError (code : Nat)
deriving DecidableEq, Repr

/-- Local branch of `_proxy_request_to_vm` (gateway main.py lines 884-978).
`pods` is the list returned for label selector `kubevirt.io/domain={vmid}`
(a successful list call; list errors are mapped separately and the claims
do not touch them), `call` the outcome of the pod-proxy request. -/
def proxy_request_to_vm_local (pods : List PodInfo) (call : ProxyCall) :
    ProxyResult :=
  match pods with
  | [] => .httpError 404
  | [_pod] =>
    -- The single matched pod is used regardless of its phase
    -- (the code never reads pod.status.phase).
    match call with
    | .success s b => .ok s b
    | .apiError s =>
      if s = 404 then .httpError 502
      else if s = 503 ∨ s = 504 then .httpError 503
      else if s = 401 ∨ s = 403 then .httpError 500
      else .httpError 500
    | .timeout => .httpError 504
  | _ :: _ :: _ => .httpError 500

/-! ## SDK: wait-action model

Embedding of `PostV1DesktopIdComputerActionWaitAction.to_dict` /
`from_dict` (py-sdk wait-action model file, lines 25-54). Python dicts of
JSON-ish values become key-unique association lists, with dict `update`
replacing values in place and `pop` removing a key. -/

/-- A JSON-ish Python value, enough for the wait-action wire shape. -/
inductive PyVal where
  | str (s : String)
  | int (n : Int)
deriving DecidableEq, Repr

/-- Python dicts of `PyVal`s, as key-unique association lists. -/
abbrev PDict := List (String × PyVal)

/-- `d[k]` lookup. -/
def dGet : PDict → String → Option PyVal
  | [], _ => none
  | p :: t, k => if p.1 = k then some p.2 else dGet t k

/-- `d[k] = v`: replace in place when present, append otherwise. -/
def dSet : PDict → String → PyVal → PDict
  | [], k, v => [(k, v)]
  | p :: t, k, v => if p.1 = k then (k, v) :: t else p :: dSet t k v

/-- `d.update(d2)`: apply `dSet` for every pair of `d2` in order. -/
def dUpdate (d : PDict) : PDict → PDict
  | [] => d
  | (k, v) :: rest => dUpdate (dSet d k v) rest

/-- `d.pop(k)`: the removed value and the remaining dict, or `none` when
the key is absent (Python raises `KeyError`). -/
def dPop : PDict → String → Option (PyVal × PDict)
  | [], _ => none
  | p :: t, k =>
    if p.1 = k then some (p.2, t)
    else match dPop t k with
      | none => none
      | some (v, t') => some (v, p :: t')

/-- Modelled from the spec: the generated enum
`PostV1DesktopIdComputerActionWaitActionType` is not under `src/`; per the
spec's wire contract the `wait` action's discriminator value is the string
`"wait"`, so the enum has the single member below. -/
inductive WaitActionType where
  | wait
deriving DecidableEq, Repr

/-- `.value` of the enum member. -/
def WaitActionType.value : WaitActionType → String
  | .wait => "wait"

/-- The enum constructor `PostV1DesktopIdComputerActionWaitActionType(s)`;
`none` models the `ValueError` for a non-member string. -/
def waitActionTypeOf? (s : String) : Option WaitActionType :=
  if s = "wait" then some .wait else none

/-- The `PostV1DesktopIdComputerActionWaitAction` attrs class: the `type_`
discriminator, the `ms` integer, and the open `additional_properties`
bag. -/
structure WaitAction where
  type_ : WaitActionType
  ms : Int
  additional_properties : PDict := []
deriving DecidableEq, Repr

/-- `to_dict` (model file lines 25-39): start from the additional
properties, then overwrite/insert the `type` and `ms` keys. -/
def WaitAction.to_dict (a : WaitAction) : PDict :=
  dUpdate (dUpdate [] a.additional_properties)
    [("type", .str a.type_.value), ("ms", .int a.ms)]

/-- `from_dict` (model file lines 41-54): pop `type` (raising on a missing
key or a non-member value) and `ms`, keep the rest as additional
properties. `none` models a raised `KeyError`/`ValueError`; a non-integer
`ms` is also rejected here (the attrs field is declared `ms: int`), a case
no wire dict produced by `to_dict` exercises. -/
def WaitAction.from_dict (src : PDict) : Option WaitAction :=
  match dPop src "type" with
  | none => none
  | some (.int _, _) => none
  | some (.str ts, d1) =>
    match waitActionTypeOf? ts with
    | none => none
    | some t =>
      match dPop d1 "ms" with
      | none => none
      | some (.str _, _) => none
      | some (.int m, d2) => some { type_ := t, ms := m,
                                    additional_properties := d2 }

/-! ## Helper lemmas -/

theorem lookupStr_setStr (l : List (String × String)) (k v k' : String) :
    lookupStr (setStr l k v) k' = if k' = k then some v else lookupStr l k' := by
  induction l with
  | nil =>
    by_cases h : k' = k
    · simp [setStr, lookupStr, h]
    · have h2 : ¬ k = k' := fun hx => h hx.symm
      simp [setStr, lookupStr, h, h2]
  | cons p t ih =>
    by_cases hp : p.1 = k
    · by_cases h : k' = k
      · simp [setStr, lookupStr, hp, h]
      · have hpk : ¬ p.1 = k' := fun hx => h ((hx ▸ hp : k' = k))
        have h2 : ¬ k = k' := fun hx => h hx.symm
        simp [setStr, lookupStr, hp, h, hpk, h2]
    · by_cases hpk : p.1 = k'
      · have h : ¬ k' = k := fun hx => hp (hpk.trans hx)
        simp [setStr, lookupStr, hp, hpk, h]
      · simp [setStr, lookupStr, hp, hpk, ih]

/-! ## C2 — VMI phase-change sync -/

/-- C2 (counterexample): the claim says an unrecognized VMI phase value is
written to the datastore as `error`; in the code the unguarded
`KubeVirtVMIPhase(new)` call on controller.py line 725 raises `ValueError`
for the unrecognized phase `"Booting"` before any datastore write, so the
handler aborts instead of writing `error`. -/
theorem C2_unrecognized_phase_raises_counterexample :
    vmi_phase_change [("app", "cyberdesk"), ("cyberdesk-instance", "i1")]
      (some "Booting") (some "pending") = SyncResult.raised ∧
    SyncResult.raised ≠ SyncResult.wrote "i1" "error" := by
  constructor
  · rfl
  · intro h
    exact SyncResult.noConfusion h

/-- C2 (amended): for every phase-change event on a VMI labeled
`app=cyberdesk` carrying a non-empty `cyberdesk-instance` label, the
handler maps recognized phases by the fixed table — `Pending`,
`Scheduling`, `Scheduled`, `Running` ↦ `pending`; `Succeeded` ↦
`terminated`; `Failed`, `Unknown` ↦ `error` — and issues the write only
when the mapped status differs from the stored one; an unrecognized phase
value raises before any write instead of being recorded as `error`. -/
theorem C2_phase_mapping_amended (labels : List (String × String))
    (instanceId : String) (db : Option String)
    (hApp : lookupStr labels "app" = some "cyberdesk")
    (hInst : lookupStr labels "cyberdesk-instance" = some instanceId)
    (hId : instanceId ≠ "") :
    (∀ ph, (ph = "Pending" ∨ ph = "Scheduling" ∨ ph = "Scheduled" ∨
        ph = "Running") →
      vmi_phase_change labels (some ph) db =
        if db = some "pending" then SyncResult.noWrite
        else SyncResult.wrote instanceId "pending") ∧
    (vmi_phase_change labels (some "Succeeded") db =
      if db = some "terminated" then SyncResult.noWrite
      else SyncResult.wrote instanceId "terminated") ∧
    (∀ ph, (ph = "Failed" ∨ ph = "Unknown") →
      vmi_phase_change labels (some ph) db =
        if db = some "error" then SyncResult.noWrite
        else SyncResult.wrote instanceId "error") ∧
    (∀ ph, kubeVirtVMIPhaseOf? ph = none →
      vmi_phase_change labels (some ph) db = SyncResult.raised) := by
  refine ⟨?_, ?_, ?_, ?_⟩
  · rintro ph (rfl | rfl | rfl | rfl) <;>
      simp [vmi_phase_change, kubeVirtVMIPhaseOf?, vmiPhaseToSupabaseStatus,
        hApp, hInst, hId]
  · simp [vmi_phase_change, kubeVirtVMIPhaseOf?, vmiPhaseToSupabaseStatus,
      hApp, hInst, hId]
  · rintro ph (rfl | rfl) <;>
      simp [vmi_phase_change, kubeVirtVMIPhaseOf?, vmiPhaseToSupabaseStatus,
        hApp, hInst, hId]
  · intro ph hph
    simp [vmi_phase_change, hApp, hInst, hId, hph]

/-- C2 (witness): the amended mapping evaluated on concrete events — a
`Running` VMI with stored status `running` maps to `pending` and is
written, and a repeated `Succeeded` notification with `terminated` already
stored causes no write. -/
theorem C2_witness :
    vmi_phase_change [("app", "cyberdesk"), ("cyberdesk-instance", "i1")]
      (some "Running") (some "running") = SyncResult.wrote "i1" "pending" ∧
    vmi_phase_change [("app", "cyberdesk"), ("cyberdesk-instance", "i1")]
      (some "Succeeded") (some "terminated") = SyncResult.noWrite := by
  have h := C2_phase_mapping_amended
    [("app", "cyberdesk"), ("cyberdesk-instance", "i1")] "i1"
  refine ⟨?_, ?_⟩
  · have h1 := (h (some "running") rfl rfl (by decide)).1 "Running"
      (Or.inr (Or.inr (Or.inr rfl)))
    simpa using h1
  · have h2 := (h (some "terminated") rfl rfl (by decide)).2.1
    simpa using h2

/-! ## C6 — expiry sweeper -/

/-- C6 (counterexample): the claim says a deletion failure is logged with
404 treated as success; in the code the delete call of
`cyberdesk_timeout_check` (controller.py lines 793-795) has no try/except,
so for an expired resource whose delete raises `ApiException(404)` the
exception propagates out of the handler instead of being treated as
success. -/
theorem C6_delete_404_raises_counterexample :
    cyberdesk_timeout_check 10 "desk-1" (some 5) (some 404) =
      TimerResult.raisedApi "desk-1" 404 ∧
    TimerResult.raisedApi "desk-1" 404 ≠ TimerResult.deleted "desk-1" := by
  exact ⟨by decide, by decide⟩

/-- C6 (amended): on a sweep tick a Cyberdesk whose `expiryTime` is at or
before the current time has a delete issued (and is deleted when the call
succeeds), a Cyberdesk without an `expiryTime` or with a future
`expiryTime` is left untouched; but a deletion failure — 404 included —
propagates out of the handler uncaught rather than being logged or treated
as success. -/
theorem C6_expiry_sweep_amended (now : Int) (name : String)
    (expiry : Option Int) (deleteError : Option Nat) :
    (expiry = none → cyberdesk_timeout_check now name expiry deleteError =
      TimerResult.skipped) ∧
    (∀ e, expiry = some e → e ≤ now → deleteError = none →
      cyberdesk_timeout_check now name expiry deleteError =
        TimerResult.deleted name) ∧
    (∀ e, expiry = some e → now < e →
      cyberdesk_timeout_check now name expiry deleteError =
        TimerResult.skipped) ∧
    (∀ e code, expiry = some e → e ≤ now → deleteError = some code →
      cyberdesk_timeout_check now name expiry deleteError =
        TimerResult.raisedApi name code) := by
  refine ⟨?_, ?_, ?_, ?_⟩
  · rintro rfl; rfl
  · rintro e rfl he rfl
    simp [cyberdesk_timeout_check, he]
  · rintro e rfl he
    simp [cyberdesk_timeout_check, not_le.mpr he]
  · rintro e code rfl he rfl
    simp [cyberdesk_timeout_check, he]

/-- C6 (witness): the amended sweep behavior at concrete instants — an
expired resource is deleted, a resource without expiry and one expiring in
the future are skipped. -/
theorem C6_witness :
    cyberdesk_timeout_check 100 "d1" (some 40) none =
      TimerResult.deleted "d1" ∧
    cyberdesk_timeout_check 100 "d2" none none = TimerResult.skipped ∧
    cyberdesk_timeout_check 100 "d3" (some 500) none =
      TimerResult.skipped := by
  refine ⟨?_, ?_, ?_⟩
  · exact (C6_expiry_sweep_amended 100 "d1" (some 40) none).2.1 40 rfl
      (by decide) rfl
  · exact (C6_expiry_sweep_amended 100 "d2" none none).1 rfl
  · exact (C6_expiry_sweep_amended 100 "d3" (some 500) none).2.2.1 500 rfl
      (by decide)

/-! ## C10 — ready callback fails closed before the datastore write -/

/-- C10: `POST /cyberdesk/{id}/ready` answers 503 with no datastore write
when the gateway's LoadBalancer address cannot be determined, and a 500 is
produced only after an address was obtained, the write was issued, and the
update reported an exception or zero affected rows. -/
theorem C10_ready_503_before_write (vmId : String) (w : ReadyWorld) :
    (w.externalIp = none →
      cyberdesk_ready vmId w = { response := .err 503, dbWrite := none }) ∧
    ((cyberdesk_ready vmId w).response = .err 500 →
      (∃ ip, w.externalIp = some ip) ∧
      (cyberdesk_ready vmId w).dbWrite ≠ none ∧
      (w.dbRowsUpdated = none ∨ w.dbRowsUpdated = some 0)) := by
  constructor
  · intro h
    simp [cyberdesk_ready, h]
  · intro h500
    match hip : w.externalIp with
    | none =>
      rw [cyberdesk_ready, hip] at h500
      exact absurd h500 (by simp)
    | some ip =>
      refine ⟨⟨ip, rfl⟩, ?_, ?_⟩
      · rw [cyberdesk_ready, hip]
        match hdb : w.dbRowsUpdated with
        | none => simp
        | some n => by_cases hn : n > 0 <;> simp [hn]
      · rw [cyberdesk_ready, hip] at h500
        match hdb : w.dbRowsUpdated with
        | none => exact Or.inl rfl
        | some n =>
          rw [hdb] at h500
          by_cases hn : n > 0
          · simp [hn] at h500
          · have h0 : n = 0 := Nat.eq_zero_of_not_pos hn
            exact Or.inr (by rw [h0])

/-- C10 (witness): with no LoadBalancer address the concrete invocation
answers 503 and writes nothing. -/
theorem C10_witness :
    cyberdesk_ready "vm-1" { externalIp := none, dbRowsUpdated := some 1 } =
      { response := .err 503, dbWrite := none } :=
  (C10_ready_503_before_write "vm-1"
    { externalIp := none, dbRowsUpdated := some 1 }).1 rfl

/-! ## C7 — ready callback stream URL -/

/-- C7 (counterexample): the claim says the stream URL is derived
deterministically from the instance id as a fixed base address plus
`/vnc/{id}`; in the code (gateway main.py lines 609-622) the base address
is the LoadBalancer IP looked up from the service status at request time,
so the same instance id yields different URLs under different lookup
results and the URL is not a function of the id alone. -/
theorem C7_stream_url_not_fixed_base_counterexample :
    (cyberdesk_ready "abc"
        { externalIp := some "1.2.3.4", dbRowsUpdated := some 1 }).response =
      ReadyResponse.ok "http://1.2.3.4:80/vnc/abc" ∧
    (cyberdesk_ready "abc"
        { externalIp := some "5.6.7.8", dbRowsUpdated := some 1 }).response =
      ReadyResponse.ok "http://5.6.7.8:80/vnc/abc" ∧
    ReadyResponse.ok "http://1.2.3.4:80/vnc/abc" ≠
      ReadyResponse.ok "http://5.6.7.8:80/vnc/abc" := by
  refine ⟨rfl, rfl, by decide⟩

/-- C7 (amended): `POST /cyberdesk/{id}/ready` derives the stream URL as
`http://{addr}:80/vnc/{id}` where `addr` is the gateway LoadBalancer
address looked up at request time (not a fixed base), writes it together
with status `running` into the datastore, and returns 200 with the stream
URL when the update affects a non-zero number of rows, 500 when the update
raises or affects zero rows. -/
theorem C7_ready_url_amended (vmId ip : String) (w : ReadyWorld)
    (hip : w.externalIp = some ip) :
    cyberdesk_ready vmId w =
      { response :=
          match w.dbRowsUpdated with
          | some (_ + 1) => .ok ("http://" ++ ip ++ ":80/vnc/" ++ vmId)
          | _ => .err 500,
        dbWrite := some (vmId, "running",
          "http://" ++ ip ++ ":80/vnc/" ++ vmId) } := by
  rw [cyberdesk_ready, hip]
  match hdb : w.dbRowsUpdated with
  | none => simp
  | some 0 => simp
  | some (n + 1) => simp

/-- C7 (witness): the amended behavior on a concrete call — address
`203.0.113.9`, one row updated — answers 200 with
`http://203.0.113.9:80/vnc/desk-9` and records the matching write. -/
theorem C7_witness :
    cyberdesk_ready "desk-9"
        { externalIp := some "203.0.113.9", dbRowsUpdated := some 1 } =
      { response := .ok "http://203.0.113.9:80/vnc/desk-9",
        dbWrite := some ("desk-9", "running",
          "http://203.0.113.9:80/vnc/desk-9") } := by
  have h := C7_ready_url_amended "desk-9" "203.0.113.9"
    { externalIp := some "203.0.113.9", dbRowsUpdated := some 1 } rfl
  simpa using h

/-! ## C8 — command/health proxy, local path -/

/-- C8 (counterexample): the claim says a matched pod that is not Running
yields 503; in the code (gateway main.py lines 891-923) the pod's phase is
never consulted — with a single matched pod in phase `Pending` the request
is proxied anyway and the upstream answer is returned, not a 503. -/
theorem C8_non_running_pod_no_503_counterexample :
    proxy_request_to_vm_local [{ name := "virt-launcher-abc", phase := "Pending" }]
      (ProxyCall.success 200 "healthy") = ProxyResult.ok 200 "healthy" ∧
    ProxyResult.ok 200 "healthy" ≠ ProxyResult.httpError 503 := by
  exact ⟨rfl, by decide⟩

/-- C8 (amended): on the local path the helper lists pods whose
`kubevirt.io/domain` label equals the VM name and returns 404 when none
match, uses the single matched pod regardless of its phase (500 when
several match), and maps pod-proxy API errors 404 ↦ 502, 503/504 ↦ 503,
401/403 ↦ 500, anything else ↦ 500, with a timeout surfacing as 504. -/
theorem C8_proxy_error_mapping_amended (pods : List PodInfo)
    (call : ProxyCall) :
    (pods = [] → proxy_request_to_vm_local pods call =
      ProxyResult.httpError 404) ∧
    (∀ pod, pods = [pod] →
      (∀ s b, call = .success s b →
        proxy_request_to_vm_local pods call = ProxyResult.ok s b) ∧
      (call = .timeout →
        proxy_request_to_vm_local pods call = ProxyResult.httpError 504) ∧
      (∀ s, call = .apiError s →
        proxy_request_to_vm_local pods call = ProxyResult.httpError
          (if s = 404 then 502
           else if s = 503 ∨ s = 504 then 503
           else 500))) ∧
    (∀ p q r, pods = p :: q :: r →
      proxy_request_to_vm_local pods call = ProxyResult.httpError 500) := by
  refine ⟨?_, ?_, ?_⟩
  · rintro rfl; rfl
  · rintro pod rfl
    refine ⟨?_, ?_, ?_⟩
    · rintro s b rfl; rfl
    · rintro rfl; rfl
    · rintro s rfl
      by_cases h4 : s = 404
      · simp [proxy_request_to_vm_local, h4]
      · by_cases h5 : s = 503 ∨ s = 504
        · simp [proxy_request_to_vm_local, h4, h5]
        · by_cases h6 : s = 401 ∨ s = 403 <;>
            simp [proxy_request_to_vm_local, h4, h5, h6]
  · rintro p q r rfl; rfl

/-- C8 (witness): the amended mapping on concrete calls — empty pod list
gives 404, and with one matched pod an upstream `ApiException(503)` maps
to 503 while an `ApiException(404)` maps to 502. -/
theorem C8_witness :
    proxy_request_to_vm_local [] (ProxyCall.apiError 503) =
      ProxyResult.httpError 404 ∧
    proxy_request_to_vm_local [{ name := "p", phase := "Running" }]
      (ProxyCall.apiError 503) = ProxyResult.httpError 503 ∧
    proxy_request_to_vm_local [{ name := "p", phase := "Running" }]
      (ProxyCall.apiError 404) = ProxyResult.httpError 502 := by
  refine ⟨?_, ?_, ?_⟩
  · exact (C8_proxy_error_mapping_amended [] (ProxyCall.apiError 503)).1 rfl
  · have h := ((C8_proxy_error_mapping_amended
      [{ name := "p", phase := "Running" }]
      (ProxyCall.apiError 503)).2.1 { name := "p", phase := "Running" }
      rfl).2.2 503 rfl
    simpa using h
  · have h := ((C8_proxy_error_mapping_amended
      [{ name := "p", phase := "Running" }]
      (ProxyCall.apiError 404)).2.1 { name := "p", phase := "Running" }
      rfl).2.2 404 rfl
    simpa using h

/-! ## C4 — warm-pool claim algorithm -/

/-- C4: among the VMs listed with `pool.kubevirt.io/warm=ready`, the first
candidate in list order that is not `in-use=true` and is `Running` and
whose patch succeeds is plucked and returned; a patch failure makes the
search continue with the next candidate; when no candidate qualifies the
function returns `none` ("no warm VM available") rather than raising; and
the pluck patch removes `ownerReferences`, sets `in-use=true` and
`warm=claimed`, and preserves every other label. -/
theorem C4_warm_pool_claim (vms : List PoolVM) (patchOk : String → Bool) :
    ((∀ vm ∈ vms, vm.name ≠ "") →
      get_free_vm_from_pool patchOk vms =
        (vms.find? (fun vm => vmEligible vm && patchOk vm.name)).map
          PoolVM.name) ∧
    (∀ vm rest, vm.name ≠ "" → vmEligible vm = true →
      patchOk vm.name = false →
      get_free_vm_from_pool patchOk (vm :: rest) =
        get_free_vm_from_pool patchOk rest) ∧
    ((∀ vm ∈ vms, ¬(vmEligible vm = true ∧ patchOk vm.name = true)) →
      get_free_vm_from_pool patchOk vms = none) ∧
    (∀ vm, (pluckPatch vm).hasOwnerReferences = false ∧
      lookupStr (pluckPatch vm).labels "pool.kubevirt.io/in-use" =
        some "true" ∧
      lookupStr (pluckPatch vm).labels "pool.kubevirt.io/warm" =
        some "claimed" ∧
      ∀ k, k ≠ "pool.kubevirt.io/in-use" → k ≠ "pool.kubevirt.io/warm" →
        lookupStr (pluckPatch vm).labels k = lookupStr vm.labels k) := by
  refine ⟨?_, ?_, ?_, ?_⟩
  · intro hnames
    induction vms with
    | nil => rfl
    | cons vm rest ih =>
      have hn : vm.name ≠ "" := hnames vm (List.mem_cons_self vm rest)
      have hrest : ∀ v ∈ rest, v.name ≠ "" :=
        fun v hv => hnames v (List.mem_cons_of_mem vm hv)
      by_cases hiu : lookupStr vm.labels "pool.kubevirt.io/in-use" =
          some "true"
      · simp [get_free_vm_from_pool, hn, hiu, vmEligible, ih hrest]
      · by_cases hrun : vm.printableStatus = some "Running"
        · by_cases hpo : patchOk vm.name
          · simp [get_free_vm_from_pool, hn, hiu, hrun, hpo, vmEligible]
          · simp [get_free_vm_from_pool, hn, hiu, hrun, hpo, vmEligible,
              ih hrest]
        · simp [get_free_vm_from_pool, hn, hiu, hrun, vmEligible, ih hrest]
  · intro vm rest hn helig hpo
    have hiu : lookupStr vm.labels "pool.kubevirt.io/in-use" ≠
        some "true" := by
      intro h
      simp [vmEligible, h] at helig
    have hrun : vm.printableStatus = some "Running" := by
      by_contra h
      simp [vmEligible, h] at helig
    simp [get_free_vm_from_pool, hn, hiu, hrun, hpo]
  · intro hnone
    induction vms with
    | nil => rfl
    | cons vm rest ih =>
      have hvm := hnone vm (List.mem_cons_self vm rest)
      have hrest : ∀ v ∈ rest, ¬(vmEligible v = true ∧ patchOk v.name =
          true) := fun v hv => hnone v (List.mem_cons_of_mem vm hv)
      by_cases hn : vm.name = ""
      · simp [get_free_vm_from_pool, hn, ih hrest]
      · by_cases hiu : lookupStr vm.labels "pool.kubevirt.io/in-use" =
            some "true"
        · simp [get_free_vm_from_pool, hn, hiu, ih hrest]
        · by_cases hrun : vm.printableStatus = some "Running"
          · have helig : vmEligible vm = true := by
              simp [vmEligible, hiu, hrun]
            by_cases hpo : patchOk vm.name
            · exact absurd ⟨helig, hpo⟩ hvm
            · simp [get_free_vm_from_pool, hn, hiu, hrun, hpo, ih hrest]
          · simp [get_free_vm_from_pool, hn, hiu, hrun, ih hrest]
  · intro vm
    refine ⟨rfl, ?_, ?_, ?_⟩
    · show lookupStr (setStr (setStr vm.labels "pool.kubevirt.io/in-use"
        "true") "pool.kubevirt.io/warm" "claimed") "pool.kubevirt.io/in-use"
        = some "true"
      rw [lookupStr_setStr, if_neg (by decide), lookupStr_setStr,
        if_pos rfl]
    · show lookupStr (setStr (setStr vm.labels "pool.kubevirt.io/in-use"
        "true") "pool.kubevirt.io/warm" "claimed") "pool.kubevirt.io/warm"
        = some "claimed"
      rw [lookupStr_setStr, if_pos rfl]
    · intro k hk1 hk2
      show lookupStr (setStr (setStr vm.labels "pool.kubevirt.io/in-use"
        "true") "pool.kubevirt.io/warm" "claimed") k = lookupStr vm.labels k
      rw [lookupStr_setStr, if_neg hk2, lookupStr_setStr, if_neg hk1]

/-- C4 (witness): with one in-use candidate listed before one eligible
`Running` candidate and an always-succeeding patch, the second VM is
plucked, and the pluck patch on it yields exactly the claimed labels. -/
theorem C4_witness :
    get_free_vm_from_pool (fun _ => true)
      [{ name := "vm-1", labels := [("pool.kubevirt.io/in-use", "true")],
         printableStatus := some "Running", hasOwnerReferences := true },
       { name := "vm-2", labels := [("pool.kubevirt.io/warm", "ready")],
         printableStatus := some "Running", hasOwnerReferences := true }] =
      some "vm-2" ∧
    (pluckPatch { name := "vm-2",
                  labels := [("pool.kubevirt.io/warm", "ready")],
                  printableStatus := some "Running",
                  hasOwnerReferences := true }).hasOwnerReferences
      = false := by
  constructor
  · have h := (C4_warm_pool_claim
      [{ name := "vm-1", labels := [("pool.kubevirt.io/in-use", "true")],
         printableStatus := some "Running", hasOwnerReferences := true },
       { name := "vm-2", labels := [("pool.kubevirt.io/warm", "ready")],
         printableStatus := some "Running", hasOwnerReferences := true }]
      (fun _ => true)).1 (by intro vm hvm; fin_cases hvm <;> decide)
    rw [h]
    decide
  · exact ((C4_warm_pool_claim [] (fun _ => true)).2.2.2
      { name := "vm-2", labels := [("pool.kubevirt.io/warm", "ready")],
        printableStatus := some "Running", hasOwnerReferences := true }).1

/-! ## C1 — idempotent reconciliation of a provisioned Cyberdesk -/

/-- C1: for a Cyberdesk whose status already carries a `virtualMachineRef`
with `lastPhase` in `{Plucked, Cloned, Running}` and whose referenced VM
exists (the idempotent patch applies), re-running `cyberdesk_create`
creates no VirtualMachine, no VirtualMachineClone, deletes nothing, only
re-applies the idempotent VM patch, and — when `startTime` and
`expiryTime` are both already set — the status patch it writes back leaves
both unchanged. -/
theorem C1_idempotent_reconcile_no_new_resources (w : OperatorWorld)
    (instanceId : String) (current : CyberdeskStatus) (retry : Nat)
    (v s e : String)
    (hv : current.virtualMachineRef = some v) (hne : v ≠ "")
    (hphase : current.lastPhase = some "Plucked" ∨
      current.lastPhase = some "Cloned" ∨
      current.lastPhase = some "Running")
    (hs : current.startTime = some s) (he : current.expiryTime = some e)
    (hpatch : w.ensurePatchOk v = true) :
    (cyberdesk_create w instanceId current retry).outcome = Outcome.done ∧
    (cyberdesk_create w instanceId current retry).createdVMs = [] ∧
    (cyberdesk_create w instanceId current retry).createdClones = [] ∧
    (cyberdesk_create w instanceId current retry).deletedClones = [] ∧
    (cyberdesk_create w instanceId current retry).vmPatches = [v] ∧
    ∃ p, (cyberdesk_create w instanceId current retry).statusPatch =
        some p ∧
      (applyPatch current p).startTime = some s ∧
      (applyPatch current p).expiryTime = some e := by
  have hprov : provisionedRef current = some v := by
    unfold provisionedRef
    rw [hv]
    exact if_pos ⟨hne, hphase⟩
  have hmain : cyberdesk_create w instanceId current retry =
      idempotentBranch w v current := by
    unfold cyberdesk_create
    rw [hprov]
  have hcond : ¬(current.startTime = none ∨ current.expiryTime = none) := by
    rw [hs, he]
    simp
  have hbr : idempotentBranch w v current =
      { outcome := .done, vmPatches := [v],
        statusPatch := some { statusPatchOfFull current with
                              cloneOperationName := none } } := by
    unfold idempotentBranch
    rw [if_pos hpatch, if_neg hcond]
  rw [hmain, hbr]
  refine ⟨rfl, rfl, rfl, rfl, rfl, ?_⟩
  refine ⟨_, rfl, ?_, ?_⟩
  · simp [applyPatch, applyField, statusPatchOfFull, hs]
  · simp [applyPatch, applyField, statusPatchOfFull, he]

/-- C1 (witness): the idempotent branch on a concrete provisioned status
(with a VM that exists and both timestamps set) performs no creation or
deletion and keeps the timestamps. -/
theorem C1_witness :
    (cyberdesk_create
        { ensurePatchOk := fun _ => true, warmPool := [],
          poolPatchOk := fun _ => false, gatewayConfigured := true,
          cloneExists := false, clonePhase := none, cloneCreateOk := true,
          cloneDeleteError := none, now := "T2", expiry := "T3" }
        "desk-1"
        { virtualMachineRef := some "vm-7", cloneOperationName := none,
          lastPhase := some "Plucked", startTime := some "T0",
          expiryTime := some "T1" } 3).createdClones = [] ∧
    ∃ p, (cyberdesk_create
        { ensurePatchOk := fun _ => true, warmPool := [],
          poolPatchOk := fun _ => false, gatewayConfigured := true,
          cloneExists := false, clonePhase := none, cloneCreateOk := true,
          cloneDeleteError := none, now := "T2", expiry := "T3" }
        "desk-1"
        { virtualMachineRef := some "vm-7", cloneOperationName := none,
          lastPhase := some "Plucked", startTime := some "T0",
          expiryTime := some "T1" } 3).statusPatch = some p ∧
      (applyPatch
        { virtualMachineRef := some "vm-7", cloneOperationName := none,
          lastPhase := some "Plucked", startTime := some "T0",
          expiryTime := some "T1" } p).startTime = some "T0" := by
  have h := C1_idempotent_reconcile_no_new_resources
    { ensurePatchOk := fun _ => true, warmPool := [],
      poolPatchOk := fun _ => false, gatewayConfigured := true,
      cloneExists := false, clonePhase := none, cloneCreateOk := true,
      cloneDeleteError := none, now := "T2", expiry := "T3" }
    "desk-1"
    { virtualMachineRef := some "vm-7", cloneOperationName := none,
      lastPhase := some "Plucked", startTime := some "T0",
      expiryTime := some "T1" } 3 "vm-7" "T0" "T1"
    rfl (by decide) (Or.inl rfl) rfl rfl rfl
  obtain ⟨p, hp, hst, _⟩ := h.2.2.2.2.2
  exact ⟨h.2.2.1, p, hp, hst⟩

/-! ## C3 — clone fallback in two reconciliations -/

/-- The deterministic clone-operation name is never the empty string, so
the `if clone_op_name:` truthiness check passes for it. -/
theorem cloneName_ne_empty (instanceId : String) :
    ("clone-for-" ++ instanceId) ≠ "" := by
  intro h
  have h2 := congrArg String.length h
  rw [String.length_append] at h2
  have h3 : ("clone-for-" : String).length = 10 := rfl
  rw [h3, String.length_empty] at h2
  omega

/-- C3: a fresh Cyberdesk reconciled with no claimable warm-pool VM gets
status `cloneOperationName = clone-for-<id>`, `lastPhase =
CloningInitiated` and an explicitly cleared `virtualMachineRef`, and the
first reconciliation returns without creating any VirtualMachineClone; a
subsequent reconciliation that sees `cloneOperationName` set creates the
clone named `clone-for-<id>` with source the golden snapshot
`snapshot-golden-vm` and target `<id>` when it is missing, and creates
nothing when it already exists (it is found instead). -/
theorem C3_clone_fallback_two_step (w1 w2 w3 : OperatorWorld)
    (instanceId : String) (current1 current2 : CyberdeskStatus)
    (retry1 retry2 retry3 : Nat)
    (h1v : current1.virtualMachineRef = none)
    (h1c : current1.cloneOperationName = none)
    (hpool : get_free_vm_from_pool w1.poolPatchOk w1.warmPool = none)
    (h2v : current2.virtualMachineRef = none)
    (h2c : current2.cloneOperationName =
      some ("clone-for-" ++ instanceId))
    (hno : w2.cloneExists = false) (hok : w2.cloneCreateOk = true)
    (hyes : w3.cloneExists = true) :
    (cyberdesk_create w1 instanceId current1 retry1).outcome =
      Outcome.done ∧
    (cyberdesk_create w1 instanceId current1 retry1).createdClones = [] ∧
    (cyberdesk_create w1 instanceId current1 retry1).statusPatch = some
      { cloneOperationName := some (some ("clone-for-" ++ instanceId)),
        lastPhase := some (some "CloningInitiated"),
        virtualMachineRef := some none } ∧
    (cyberdesk_create w2 instanceId current2 retry2).createdClones =
      [{ name := "clone-for-" ++ instanceId,
         sourceApiGroup := "snapshot.kubevirt.io",
         sourceKind := "VirtualMachineSnapshot",
         sourceName := "snapshot-golden-vm",
         targetApiGroup := "kubevirt.io",
         targetKind := "VirtualMachine",
         targetName := instanceId }] ∧
    (cyberdesk_create w3 instanceId current2 retry3).createdClones =
      [] := by
  have h1prov : provisionedRef current1 = none := by
    unfold provisionedRef; rw [h1v]
  have h2prov : provisionedRef current2 = none := by
    unfold provisionedRef; rw [h2v]
  have hmain1 : cyberdesk_create w1 instanceId current1 retry1 =
      freshBranch w1 instanceId := by
    unfold cyberdesk_create
    rw [h1prov, h1c]
  have hfresh : freshBranch w1 instanceId =
      { outcome := .done,
        statusPatch := some
          { cloneOperationName :=
              some (some ("clone-for-" ++ instanceId)),
            lastPhase := some (some "CloningInitiated"),
            virtualMachineRef := some none } } := by
    unfold freshBranch
    rw [hpool]
  have hmain2 : cyberdesk_create w2 instanceId current2 retry2 =
      cloneCheckBranch w2 instanceId ("clone-for-" ++ instanceId)
        current2 retry2 := by
    unfold cyberdesk_create
    rw [h2prov, h2c]
    exact if_pos (cloneName_ne_empty instanceId)
  have hmain3 : cyberdesk_create w3 instanceId current2 retry3 =
      cloneCheckBranch w3 instanceId ("clone-for-" ++ instanceId)
        current2 retry3 := by
    unfold cyberdesk_create
    rw [h2prov, h2c]
    exact if_pos (cloneName_ne_empty instanceId)
  refine ⟨?_, ?_, ?_, ?_, ?_⟩
  · rw [hmain1, hfresh]
  · rw [hmain1, hfresh]
  · rw [hmain1, hfresh]
  · rw [hmain2]
    unfold cloneCheckBranch
    rw [hno, hok]
    rw [if_pos (by simp)]
    rw [if_pos rfl]
    rfl
  · rw [hmain3]
    unfold cloneCheckBranch
    rw [hyes]
    rw [if_neg (by simp)]
    by_cases hsu : w3.clonePhase = some "Succeeded"
    · rw [if_pos hsu]
      by_cases hp : w3.ensurePatchOk instanceId <;> simp [hp]
    · rw [if_neg hsu]
      by_cases hfa : w3.clonePhase = some "Failed"
      · rw [if_pos hfa]
      · rw [if_neg hfa]
        by_cases hun : w3.clonePhase = some "Unknown"
        · rw [if_pos hun]
        · rw [if_neg hun]
          by_cases hre : retry3 ≥ maxCloneWaitRetries <;> simp [hre]

/-- C3 (witness): the two-step clone fallback on the concrete Cyberdesk
`desk-1` with an empty warm pool — first reconciliation records the clone
decision without creating the clone, second creates
`clone-for-desk-1` from `snapshot-golden-vm` targeting `desk-1`. -/
theorem C3_witness :
    (cyberdesk_create
        { ensurePatchOk := fun _ => true, warmPool := [],
          poolPatchOk := fun _ => true, gatewayConfigured := true,
          cloneExists := false, clonePhase := none, cloneCreateOk := true,
          cloneDeleteError := none, now := "T0", expiry := "T1" }
        "desk-1" {} 0).createdClones = [] ∧
    (cyberdesk_create
        { ensurePatchOk := fun _ => true, warmPool := [],
          poolPatchOk := fun _ => true, gatewayConfigured := true,
          cloneExists := false, clonePhase := none, cloneCreateOk := true,
          cloneDeleteError := none, now := "T0", expiry := "T1" }
        "desk-1" {} 0).statusPatch = some
      { cloneOperationName := some (some "clone-for-desk-1"),
        lastPhase := some (some "CloningInitiated"),
        virtualMachineRef := some none } ∧
    (cyberdesk_create
        { ensurePatchOk := fun _ => true, warmPool := [],
          poolPatchOk := fun _ => true, gatewayConfigured := true,
          cloneExists := false, clonePhase := none, cloneCreateOk := true,
          cloneDeleteError := none, now := "T0", expiry := "T1" }
        "desk-1"
        { virtualMachineRef := none,
          cloneOperationName := some "clone-for-desk-1",
          lastPhase := some "CloningInitiated", startTime := none,
          expiryTime := none } 1).createdClones =
      [{ name := "clone-for-desk-1",
         sourceApiGroup := "snapshot.kubevirt.io",
         sourceKind := "VirtualMachineSnapshot",
         sourceName := "snapshot-golden-vm",
         targetApiGroup := "kubevirt.io",
         targetKind := "VirtualMachine",
         targetName := "desk-1" }] := by
  have h := C3_clone_fallback_two_step
    { ensurePatchOk := fun _ => true, warmPool := [],
      poolPatchOk := fun _ => true, gatewayConfigured := true,
      cloneExists := false, clonePhase := none, cloneCreateOk := true,
      cloneDeleteError := none, now := "T0", expiry := "T1" }
    { ensurePatchOk := fun _ => true, warmPool := [],
      poolPatchOk := fun _ => true, gatewayConfigured := true,
      cloneExists := false, clonePhase := none, cloneCreateOk := true,
      cloneDeleteError := none, now := "T0", expiry := "T1" }
    { ensurePatchOk := fun _ => true, warmPool := [],
      poolPatchOk := fun _ => true, gatewayConfigured := true,
      cloneExists := true, clonePhase := some "SnapshotInProgress",
      cloneCreateOk := true, cloneDeleteError := none,
      now := "T0", expiry := "T1" }
    "desk-1" {}
    { virtualMachineRef := none,
      cloneOperationName := some "clone-for-desk-1",
      lastPhase := some "CloningInitiated", startTime := none,
      expiryTime := none } 0 1 1
    rfl rfl rfl rfl rfl rfl rfl rfl
  exact ⟨h.2.1, h.2.2.1, h.2.2.2.1⟩

/-! ## C5 — clone timeout after the retry budget -/

/-- C5: a Cyberdesk whose tracked clone still reports a non-terminal
(in-progress or absent) phase when the kopf retry counter has reached the
bound of 20 attempts has its stuck clone deleted (the delete outcome,
404 included, is only logged and never consulted — the world's
`cloneDeleteError` is universally quantified here), gets a status patch
yielding `lastPhase = CloneTimeout` with both `cloneOperationName` and
`virtualMachineRef` cleared, and fails permanently. -/
theorem C5_clone_timeout (w : OperatorWorld) (instanceId c : String)
    (current : CyberdeskStatus) (retry : Nat)
    (hv : current.virtualMachineRef = none)
    (hc : current.cloneOperationName = some c) (hcne : c ≠ "")
    (hex : w.cloneExists = true)
    (hp1 : w.clonePhase ≠ some "Succeeded")
    (hp2 : w.clonePhase ≠ some "Failed")
    (hp3 : w.clonePhase ≠ some "Unknown")
    (hr : retry ≥ maxCloneWaitRetries) :
    (cyberdesk_create w instanceId current retry).outcome =
      Outcome.permanentError ∧
    (cyberdesk_create w instanceId current retry).deletedClones = [c] ∧
    (cyberdesk_create w instanceId current retry).createdClones = [] ∧
    ∃ p, (cyberdesk_create w instanceId current retry).statusPatch =
        some p ∧
      (applyPatch current p).lastPhase = some "CloneTimeout" ∧
      (applyPatch current p).cloneOperationName = none ∧
      (applyPatch current p).virtualMachineRef = none := by
  have hprov : provisionedRef current = none := by
    unfold provisionedRef; rw [hv]
  have hmain : cyberdesk_create w instanceId current retry =
      cloneCheckBranch w instanceId c current retry := by
    unfold cyberdesk_create
    rw [hprov, hc]
    exact if_pos hcne
  have hbr : cloneCheckBranch w instanceId c current retry =
      { outcome := .permanentError, deletedClones := [c],
        statusPatch := some { statusPatchOfFull current with
                              lastPhase := some (some "CloneTimeout"),
                              cloneOperationName := some none,
                              virtualMachineRef := some none } } := by
    unfold cloneCheckBranch
    rw [hex]
    rw [if_neg (by simp)]
    rw [if_neg hp1, if_neg hp2, if_neg hp3, if_pos hr]
  rw [hmain, hbr]
  refine ⟨rfl, rfl, rfl, _, rfl, ?_, ?_, ?_⟩ <;>
    simp [applyPatch, applyField, statusPatchOfFull]

/-- C5 (witness): the timeout transition on a concrete stuck clone
(`CreatingTargetVM` phase at retry 20, with the delete reporting 404). -/
theorem C5_witness :
    (cyberdesk_create
        { ensurePatchOk := fun _ => true, warmPool := [],
          poolPatchOk := fun _ => false, gatewayConfigured := true,
          cloneExists := true, clonePhase := some "CreatingTargetVM",
          cloneCreateOk := true, cloneDeleteError := some 404,
          now := "T0", expiry := "T1" }
        "desk-2"
        { virtualMachineRef := none,
          cloneOperationName := some "clone-for-desk-2",
          lastPhase := some "CloningInitiated", startTime := none,
          expiryTime := none } 20).outcome = Outcome.permanentError ∧
    (cyberdesk_create
        { ensurePatchOk := fun _ => true, warmPool := [],
          poolPatchOk := fun _ => false, gatewayConfigured := true,
          cloneExists := true, clonePhase := some "CreatingTargetVM",
          cloneCreateOk := true, cloneDeleteError := some 404,
          now := "T0", expiry := "T1" }
        "desk-2"
        { virtualMachineRef := none,
          cloneOperationName := some "clone-for-desk-2",
          lastPhase := some "CloningInitiated", startTime := none,
          expiryTime := none } 20).deletedClones = ["clone-for-desk-2"] := by
  have h := C5_clone_timeout
    { ensurePatchOk := fun _ => true, warmPool := [],
      poolPatchOk := fun _ => false, gatewayConfigured := true,
      cloneExists := true, clonePhase := some "CreatingTargetVM",
      cloneCreateOk := true, cloneDeleteError := some 404,
      now := "T0", expiry := "T1" }
    "desk-2" "clone-for-desk-2"
    { virtualMachineRef := none,
      cloneOperationName := some "clone-for-desk-2",
      lastPhase := some "CloningInitiated", startTime := none,
      expiryTime := none } 20
    rfl rfl (by decide) rfl (by decide) (by decide) (by decide)
    (by decide)
  exact ⟨h.1, h.2.1⟩

/-! ## C9 — SDK wait-action serialization round-trip -/

theorem dGet_append_of_none (d1 d2 : PDict) (k : String)
    (h : dGet d1 k = none) : dGet (d1 ++ d2) k = dGet d2 k := by
  induction d1 with
  | nil => rfl
  | cons p t ih =>
    by_cases hp : p.1 = k
    · simp [dGet, hp] at h
    · simp only [dGet, if_neg hp] at h
      simp [dGet, hp, ih h]

theorem dSet_of_dGet_none (d : PDict) (k : String) (v : PyVal)
    (h : dGet d k = none) : dSet d k v = d ++ [(k, v)] := by
  induction d with
  | nil => rfl
  | cons p t ih =>
    by_cases hp : p.1 = k
    · simp [dGet, hp] at h
    · simp only [dGet, if_neg hp] at h
      simp [dSet, hp, ih h]

theorem dUpdate_of_fresh : ∀ (props d : PDict),
    (∀ kk ∈ props.map Prod.fst, dGet d kk = none) →
    (props.map Prod.fst).Nodup →
    dUpdate d props = d ++ props := by
  intro props
  induction props with
  | nil =>
    intro d _ _
    simp [dUpdate]
  | cons p rest ih =>
    intro d hfresh hnodup
    obtain ⟨k, v⟩ := p
    simp only [List.map_cons, List.nodup_cons] at hnodup
    rw [dUpdate, dSet_of_dGet_none d k v (hfresh k (by simp)),
      ih (d ++ [(k, v)]) ?_ hnodup.2]
    · simp
    · intro kk hkk
      rw [dGet_append_of_none _ _ _ (hfresh kk (by simp [hkk]))]
      have hk : ¬ k = kk := fun he => hnodup.1 (he ▸ hkk)
      simp [dGet, hk]

theorem dPop_append_of_none (d1 d2 : PDict) (k : String)
    (h : dGet d1 k = none) :
    dPop (d1 ++ d2) k = match dPop d2 k with
      | none => none
      | some (v, t) => some (v, d1 ++ t) := by
  induction d1 with
  | nil =>
    cases hp : dPop d2 k with
    | none => simp [hp]
    | some x => simp [hp]
  | cons p t ih =>
    by_cases hp : p.1 = k
    · simp [dGet, hp] at h
    · simp only [dGet, if_neg hp] at h
      rw [List.cons_append, dPop, if_neg hp, ih h]
      cases hp2 : dPop d2 k with
      | none => simp
      | some x => simp

/-- C9 (counterexample): the claim's round-trip `from_dict (to_dict a) = a`
fails for a wait action whose additional-properties bag itself contains an
`"ms"` entry: `to_dict` overwrites it with the typed `ms` field and
`from_dict` pops it back into the typed field, so the bag entry is lost. -/
theorem C9_roundtrip_reserved_key_counterexample :
    WaitAction.from_dict (WaitAction.to_dict
        { type_ := .wait, ms := 5,
          additional_properties := [("ms", PyVal.str "7")] }) =
      some { type_ := .wait, ms := 5, additional_properties := [] } ∧
    (some { type_ := WaitActionType.wait, ms := (5 : Int),
            additional_properties := [] } : Option WaitAction) ≠
      some { type_ := .wait, ms := 5,
             additional_properties := [("ms", PyVal.str "7")] } := by
  exact ⟨rfl, by decide⟩

/-- C9 (amended): for every wait action whose additional-properties bag
has unique keys and contains neither a `"type"` nor an `"ms"` entry — true
of every action produced by `from_dict`, which pops both keys —
deserializing `to_dict`'s output reproduces the action exactly (same
discriminator, `ms` and bag); serializing `ms = 1000` yields
`{type: wait, ms: 1000}`; and an unrecognized extra wire field survives
deserialization in the additional-properties bag. -/
theorem C9_wait_action_roundtrip_amended (a : WaitAction)
    (h1 : dGet a.additional_properties "type" = none)
    (h2 : dGet a.additional_properties "ms" = none)
    (h3 : (a.additional_properties.map Prod.fst).Nodup) :
    WaitAction.from_dict (WaitAction.to_dict a) = some a ∧
    WaitAction.to_dict { type_ := .wait, ms := 1000 } =
      [("type", PyVal.str "wait"), ("ms", PyVal.int 1000)] ∧
    ∃ b, WaitAction.from_dict
        [("type", PyVal.str "wait"), ("ms", PyVal.int 1000),
         ("extra_field", PyVal.str "kept")] = some b ∧
      dGet b.additional_properties "extra_field" =
        some (PyVal.str "kept") := by
  refine ⟨?_, rfl, ?_⟩
  · obtain ⟨t, m, props⟩ := a
    simp only at h1 h2 h3
    have hto : WaitAction.to_dict
        { type_ := t, ms := m, additional_properties := props } =
        props ++ [("type", PyVal.str t.value), ("ms", PyVal.int m)] := by
      rw [WaitAction.to_dict]
      have s1 : dUpdate [] props = props := by
        have h := dUpdate_of_fresh props [] (fun kk _ => rfl) h3
        simpa using h
      have s2 : dUpdate props
          [("type", PyVal.str t.value), ("ms", PyVal.int m)] =
          props ++ [("type", PyVal.str t.value), ("ms", PyVal.int m)] := by
        refine dUpdate_of_fresh _ props ?_ (by simp)
        intro kk hkk
        simp at hkk
        rcases hkk with rfl | rfl
        · exact h1
        · exact h2
      rw [s1, s2]
    rw [hto]
    cases t
    have hpop1 : dPop (props ++
        [("type", PyVal.str WaitActionType.wait.value),
         ("ms", PyVal.int m)]) "type" =
        some (PyVal.str "wait", props ++ [("ms", PyVal.int m)]) := by
      rw [dPop_append_of_none _ _ _ h1]
      rfl
    have hpop2 : dPop (props ++ [("ms", PyVal.int m)]) "ms" =
        some (PyVal.int m, props) := by
      rw [dPop_append_of_none _ _ _ h2]
      simp [dPop]
    rw [WaitAction.from_dict, hpop1]
    simp only [waitActionTypeOf?, if_pos rfl]
    rw [hpop2]
    simp
  · exact ⟨{ type_ := .wait, ms := 1000,
             additional_properties := [("extra_field", PyVal.str "kept")] },
      rfl, rfl⟩

/-- C9 (witness): the amended round-trip on a concrete wait action
carrying one unknown extra property. -/
theorem C9_witness :
    WaitAction.from_dict (WaitAction.to_dict
        { type_ := .wait, ms := 42,
          additional_properties := [("note", PyVal.str "hi")] }) =
      some { type_ := .wait, ms := 42,
             additional_properties := [("note", PyVal.str "hi")] } :=
  (C9_wait_action_roundtrip_amended
    { type_ := .wait, ms := 42,
      additional_properties := [("note", PyVal.str "hi")] }
    rfl rfl (by decide)).1

end Cyberdesk
